import Mathlib

/-!
Verification of the Prometric V2 stress-testing load driver
(`test-scripts/stress-test.py`).

The driver is shallowly embedded as pure Lean functions: the mutable
`self.results` dictionary of `StressTester` becomes the `Results` record,
and each HTTP call's environment behaviour (a response, or a raised
exception) is an explicit `HttpOutcome` argument to `make_request`.
Latencies (milliseconds) are modelled as exact rationals.
-/

namespace StressTest

/-- An entry of `self.results['errors']`: either an HTTP error record
`{'endpoint', 'status', 'body'}` (body truncated to 200 characters), or an
exception record `{'endpoint', 'error'}`. -/
inductive ErrorEntry : Type
| httpError (endpoint : String) (status : Nat) (body : String)
| exnError (endpoint : String) (error : String)
deriving DecidableEq, Repr

/-- The dictionary returned by `make_request`:
`{'status': ..., 'body': ..., 'response_time': ...}`. -/
structure RequestResult : Type where
  status : Nat
  body : String
  response_time : ℚ
deriving DecidableEq, Repr

/-- The aggregate state `self.results` initialised in `StressTester.__init__`:
response times, error details, success and error counters. -/
structure Results : Type where
  response_times : List ℚ
  errors : List ErrorEntry
  success_count : Nat
  error_count : Nat
deriving DecidableEq, Repr

/-- The state built by `StressTester.__init__`: empty lists, zero counters. -/
def initResults : Results :=
  { response_times := [], errors := [], success_count := 0, error_count := 0 }

/-- The behaviour of the environment on one HTTP call: either a response
with a status, a body and a measured latency, or a raised exception
(timeout, connection error, ...). -/
inductive HttpOutcome : Type
| resp (status : Nat) (body : String) (latency : ℚ)
| exn (msg : String)
deriving DecidableEq, Repr

/-- The `except Exception` branch of `make_request`: increment
`error_count`, append `{'endpoint', 'error'}` to `errors`, and return
`{'status': 0, 'body': str(e), 'response_time': 0}`. -/
def exnBranch (st : Results) (endpoint msg : String) : Results × RequestResult :=
  ({ st with
      error_count := st.error_count + 1,
      errors := st.errors ++ [ErrorEntry.exnError endpoint msg] },
   { status := 0, body := msg, response_time := 0 })

/-- `StressTester.make_request`. A method other than `GET`/`POST` raises
`ValueError` inside the `try`, so it is caught by the same `except` branch.
On a response, the latency is appended to `response_times`, then the status
is classified: `status < 400` increments `success_count`, otherwise
`error_count` is incremented and an error entry (body truncated to its
first 200 characters) is appended. -/
def make_request (st : Results) (method endpoint : String) (outcome : HttpOutcome) :
    Results × RequestResult :=
  if method = "GET" ∨ method = "POST" then
    match outcome with
    | HttpOutcome.resp status body latency =>
        let st1 := { st with response_times := st.response_times ++ [latency] }
        let st2 :=
          if status < 400 then
            { st1 with success_count := st1.success_count + 1 }
          else
            { st1 with
                error_count := st1.error_count + 1,
                errors := st1.errors ++
                  [ErrorEntry.httpError endpoint status (body.take 200)] }
        (st2, { status := status, body := body, response_time := latency })
    | HttpOutcome.exn msg => exnBranch st endpoint msg
  else
    exnBranch st endpoint ("Unsupported method: " ++ method)

/-- One request descriptor of a batch, paired with the environment's
behaviour on it. -/
structure RequestSpec : Type where
  method : String
  endpoint : String
  outcome : HttpOutcome

/-- The fan-out/fan-in of `asyncio.gather(*tasks)` over `make_request`
tasks: counter updates run serially on the single event loop, so the batch
is the left-to-right composition of the per-request updates, and `gather`
collects one result per task. -/
def runBatch (st : Results) (reqs : List RequestSpec) : Results × List RequestResult :=
  match reqs with
  | [] => (st, [])
  | r :: rs =>
      let p := make_request st r.method r.endpoint r.outcome
      let q := runBatch p.1 rs
      (q.1, p.2 :: q.2)

/-- `sorted(...)`: a sorted copy of the list. -/
def sortList (l : List ℚ) : List ℚ :=
  l.insertionSort (fun a b => a ≤ b)

/-- `statistics.mean`. -/
def mean (l : List ℚ) : ℚ :=
  l.sum / (l.length : ℚ)

/-- `statistics.median`: middle element of the sorted copy for odd length,
average of the two middle elements for even length. -/
def median (l : List ℚ) : ℚ :=
  let s := sortList l
  let n := s.length
  if n % 2 = 1 then s.getD (n / 2) 0
  else (s.getD (n / 2 - 1) 0 + s.getD (n / 2) 0) / 2

/-- `max(...)` on a list, as Python computes it on a non-empty list. -/
def maxList (l : List ℚ) : ℚ :=
  match l with
  | [] => 0
  | x :: xs => xs.foldl max x

/-- The script's 95th percentile:
`sorted(times)[int(len(times) * 0.95)]`, i.e. the element at 0-based index
`⌊19·n/20⌋` of the sorted copy. -/
def percentile95 (l : List ℚ) : ℚ :=
  (sortList l).getD (19 * l.length / 20) 0

/-- Modelled from the spec: the nearest-rank 95th percentile, the element
at 1-based rank `⌈0.95·n⌉` of the sorted copy (`⌈19·n/20⌉ = (19·n+19)/20`
in natural division). -/
def nearestRank95 (l : List ℚ) : ℚ :=
  (sortList l).getD ((19 * l.length + 19) / 20 - 1) 0

/-- The summary statistics printed from the recorded latencies. -/
structure Stats : Type where
  mean : ℚ
  median : ℚ
  p95 : ℚ
  max : ℚ
deriving DecidableEq, Repr

/-- The statistics block of the report: mean, median, script percentile and
max over `self.results['response_times']`. -/
def summarize (st : Results) : Stats :=
  { mean := mean st.response_times,
    median := median st.response_times,
    p95 := percentile95 st.response_times,
    max := maxList st.response_times }

/-! ### Helper lemmas -/

/-- Case analysis on `make_request`: a classified success (`status < 400`),
a classified HTTP error (`status >= 400`), or the exception branch. -/
lemma make_request_cases (st : Results) (m e : String) (o : HttpOutcome) :
    (∃ s b lat, o = HttpOutcome.resp s b lat ∧ (m = "GET" ∨ m = "POST") ∧ s < 400 ∧
      make_request st m e o =
        ({ st with response_times := st.response_times ++ [lat],
                   success_count := st.success_count + 1 },
         { status := s, body := b, response_time := lat })) ∨
    (∃ s b lat, o = HttpOutcome.resp s b lat ∧ (m = "GET" ∨ m = "POST") ∧ 400 ≤ s ∧
      make_request st m e o =
        ({ st with response_times := st.response_times ++ [lat],
                   error_count := st.error_count + 1,
                   errors := st.errors ++ [ErrorEntry.httpError e s (String.take b 200)] },
         { status := s, body := b, response_time := lat })) ∨
    (∃ msg, make_request st m e o = exnBranch st e msg) := by
  unfold make_request
  split
  · cases o with
    | resp s b lat =>
        by_cases hs : s < 400
        · exact Or.inl ⟨s, b, lat, rfl, by assumption, hs, by simp [hs]⟩
        · exact Or.inr (Or.inl ⟨s, b, lat, rfl, by assumption, by omega, by simp [hs]⟩)
    | exn msg => exact Or.inr (Or.inr ⟨msg, rfl⟩)
  · exact Or.inr (Or.inr ⟨_, rfl⟩)

/-- Every path through `make_request` increments exactly one of the two
counters. -/
lemma make_request_sum (st : Results) (m e : String) (o : HttpOutcome) :
    (make_request st m e o).1.success_count + (make_request st m e o).1.error_count
      = st.success_count + st.error_count + 1 := by
  rcases make_request_cases st m e o with
    ⟨s, b, lat, _, _, _, h⟩ | ⟨s, b, lat, _, _, _, h⟩ | ⟨msg, h⟩
  · simp [h]
    omega
  · simp [h]
    omega
  · simp [h, exnBranch]
    omega

/-- `make_request` never decreases either counter. -/
lemma make_request_mono (st : Results) (m e : String) (o : HttpOutcome) :
    st.success_count ≤ (make_request st m e o).1.success_count ∧
    st.error_count ≤ (make_request st m e o).1.error_count := by
  rcases make_request_cases st m e o with
    ⟨s, b, lat, _, _, _, h⟩ | ⟨s, b, lat, _, _, _, h⟩ | ⟨msg, h⟩ <;>
    simp [h, exnBranch]

/-- `make_request` preserves `error_count = length errors`. -/
lemma make_request_inv (st : Results) (m e : String) (o : HttpOutcome)
    (hinv : st.error_count = st.errors.length) :
    (make_request st m e o).1.error_count = (make_request st m e o).1.errors.length := by
  rcases make_request_cases st m e o with
    ⟨s, b, lat, _, _, _, h⟩ | ⟨s, b, lat, _, _, _, h⟩ | ⟨msg, h⟩ <;>
    simp [h, exnBranch, hinv]

/-- A response with an error status (for any method) increments
`error_count` and leaves `success_count` unchanged. -/
lemma make_request_ge400 (st : Results) (m e : String) (s : Nat) (b : String)
    (lat : ℚ) (hs : 400 ≤ s) :
    (make_request st m e (HttpOutcome.resp s b lat)).1.error_count = st.error_count + 1 ∧
    (make_request st m e (HttpOutcome.resp s b lat)).1.success_count = st.success_count := by
  unfold make_request
  split
  · have hns : ¬ s < 400 := by omega
    simp [hns]
  · simp [exnBranch]

/-- `gather` produces one result per dispatched task. -/
lemma runBatch_length (st : Results) (reqs : List RequestSpec) :
    (runBatch st reqs).2.length = reqs.length := by
  induction reqs generalizing st with
  | nil => simp [runBatch]
  | cons r rs ih => simp [runBatch, ih]

/-- Across a batch, the counter total grows by exactly the batch size. -/
lemma runBatch_sum (st : Results) (reqs : List RequestSpec) :
    (runBatch st reqs).1.success_count + (runBatch st reqs).1.error_count
      = st.success_count + st.error_count + reqs.length := by
  induction reqs generalizing st with
  | nil => simp [runBatch]
  | cons r rs ih =>
      simp only [runBatch, List.length_cons]
      rw [ih, make_request_sum]
      omega

/-- A batch never decreases either counter. -/
lemma runBatch_mono (st : Results) (reqs : List RequestSpec) :
    st.success_count ≤ (runBatch st reqs).1.success_count ∧
    st.error_count ≤ (runBatch st reqs).1.error_count := by
  induction reqs generalizing st with
  | nil => simp [runBatch]
  | cons r rs ih =>
      simp only [runBatch]
      have h1 := make_request_mono st r.method r.endpoint r.outcome
      have h2 := ih (make_request st r.method r.endpoint r.outcome).1
      exact ⟨le_trans h1.1 h2.1, le_trans h1.2 h2.2⟩

/-! ### Claims -/

/-- Claim C1: for every batch of N request descriptors, `runBatch` returns
exactly N results and the counter total `success_count + error_count` grows
by exactly N; equivalently, each single `make_request` grows the total by
exactly one on every execution path. -/
theorem claim1_batch_counts (st : Results) (m e : String) (o : HttpOutcome)
    (reqs : List RequestSpec) :
    (runBatch st reqs).2.length = reqs.length ∧
    (runBatch st reqs).1.success_count + (runBatch st reqs).1.error_count
      = st.success_count + st.error_count + reqs.length ∧
    (make_request st m e o).1.success_count + (make_request st m e o).1.error_count
      = st.success_count + st.error_count + 1 :=
  ⟨runBatch_length st reqs, runBatch_sum st reqs, make_request_sum st m e o⟩

/-- Claim C2: when the HTTP call raises, `make_request` propagates no
exception: it returns the synthetic result `{status 0, error text as body,
response_time 0}` and increments `error_count` (appending the error
detail). -/
theorem claim2_exception_result (st : Results) (m e msg : String)
    (hm : m = "GET" ∨ m = "POST") :
    make_request st m e (HttpOutcome.exn msg) =
      ({ st with error_count := st.error_count + 1,
                 errors := st.errors ++ [ErrorEntry.exnError e msg] },
       { status := 0, body := msg, response_time := 0 }) := by
  unfold make_request
  rw [if_pos hm]
  rfl

/-- Witness for C2 at a concrete timed-out `GET /auth/profile`. -/
theorem claim2_exception_result_witness :
    ("GET" = "GET" ∨ "GET" = "POST") ∧
    make_request initResults "GET" "/auth/profile" (HttpOutcome.exn "timeout") =
      ({ response_times := [], errors := [ErrorEntry.exnError "/auth/profile" "timeout"],
         success_count := 0, error_count := 1 },
       { status := 0, body := "timeout", response_time := 0 }) :=
  ⟨Or.inl rfl, claim2_exception_result initResults "GET" "/auth/profile" "timeout" (Or.inl rfl)⟩

/-- Claim C3 counterexample: a 304 response is a non-2xx HTTP status, yet
the script (classifying by `status < 400`) increments `success_count`,
leaves `error_count` unchanged, and appends nothing to `errors` — refuting
the claim that every non-2xx status is recorded as an error. -/
theorem claim3_counterexample :
    (make_request initResults "GET" "/customers"
        (HttpOutcome.resp 304 "Not Modified" 5)).1.error_count
      = initResults.error_count ∧
    (make_request initResults "GET" "/customers"
        (HttpOutcome.resp 304 "Not Modified" 5)).1.errors.length
      = initResults.errors.length ∧
    (make_request initResults "GET" "/customers"
        (HttpOutcome.resp 304 "Not Modified" 5)).1.success_count
      = initResults.success_count + 1 ∧
    ¬ ((make_request initResults "GET" "/customers"
          (HttpOutcome.resp 304 "Not Modified" 5)).1.error_count
        = initResults.error_count + 1) := by
  refine ⟨rfl, rfl, rfl, fun h => ?_⟩
  have h0 : (make_request initResults "GET" "/customers"
      (HttpOutcome.resp 304 "Not Modified" 5)).1.error_count
      = initResults.error_count := rfl
  omega

/-- Claim C3 (amended): every per-request failure — a raised exception
(timeout, connection error) or a response with status >= 400 — increments
`error_count` and appends exactly one entry to `errors`, and the batch is
not aborted: `runBatch` still yields one result per descriptor. (The
original claim's "non-2xx status" is amended to "status >= 400": the
script counts 1xx/3xx responses as successes.) -/
theorem claim3_failure_recorded (st : Results) (m e : String) (o : HttpOutcome)
    (reqs : List RequestSpec) (hm : m = "GET" ∨ m = "POST")
    (hf : (∃ msg, o = HttpOutcome.exn msg) ∨
          ∃ s b lat, o = HttpOutcome.resp s b lat ∧ 400 ≤ s) :
    (make_request st m e o).1.error_count = st.error_count + 1 ∧
    (make_request st m e o).1.errors.length = st.errors.length + 1 ∧
    (runBatch st reqs).2.length = reqs.length := by
  refine ⟨?_, ?_, runBatch_length st reqs⟩ <;>
  · rcases hf with ⟨msg, rfl⟩ | ⟨s, b, lat, rfl, hs⟩
    · unfold make_request
      rw [if_pos hm]
      simp [exnBranch]
    · unfold make_request
      rw [if_pos hm]
      have hns : ¬ s < 400 := by omega
      simp [hns]

/-- Witness for C3 at a concrete connection-reset `GET /customers` and a
one-element batch. -/
theorem claim3_failure_recorded_witness :
    ("GET" = "GET" ∨ "GET" = "POST") ∧
    (make_request initResults "GET" "/customers" (HttpOutcome.exn "reset")).1.error_count
      = initResults.error_count + 1 ∧
    (make_request initResults "GET" "/customers" (HttpOutcome.exn "reset")).1.errors.length
      = initResults.errors.length + 1 ∧
    (runBatch initResults
        [{ method := "GET", endpoint := "/customers", outcome := HttpOutcome.exn "reset" }]).2.length
      = [({ method := "GET", endpoint := "/customers", outcome := HttpOutcome.exn "reset" } : RequestSpec)].length :=
  ⟨Or.inl rfl,
   claim3_failure_recorded initResults "GET" "/customers" (HttpOutcome.exn "reset")
     [{ method := "GET", endpoint := "/customers", outcome := HttpOutcome.exn "reset" }]
     (Or.inl rfl) (Or.inl ⟨"reset", rfl⟩)⟩

/-- Claim C4: a batch whose every request receives HTTP status 500
increases `error_count` by the batch size and leaves `success_count`
unchanged. -/
theorem claim4_all500_batch (st : Results) (reqs : List RequestSpec)
    (h : ∀ r ∈ reqs, ∃ b lat, r.outcome = HttpOutcome.resp 500 b lat) :
    (runBatch st reqs).1.error_count = st.error_count + reqs.length ∧
    (runBatch st reqs).1.success_count = st.success_count := by
  induction reqs generalizing st with
  | nil => simp [runBatch]
  | cons r rs ih =>
      obtain ⟨b, lat, hr⟩ := h r (List.mem_cons_self r rs)
      have hrest := ih (make_request st r.method r.endpoint r.outcome).1
        (fun x hx => h x (List.mem_cons_of_mem r hx))
      have hstep := make_request_ge400 st r.method r.endpoint 500 b lat (by omega)
      rw [hr] at hrest
      simp only [runBatch, List.length_cons]
      rw [hr]
      refine ⟨?_, ?_⟩
      · rw [hrest.1, hstep.1]
        omega
      · rw [hrest.2, hstep.2]

/-- Witness for C4 at a concrete two-request always-500 batch. -/
theorem claim4_all500_batch_witness :
    (runBatch initResults
        [{ method := "GET", endpoint := "/customers", outcome := HttpOutcome.resp 500 "err" 7 },
         { method := "POST", endpoint := "/ai/chat", outcome := HttpOutcome.resp 500 "bad" 9 }]).1.error_count
      = initResults.error_count + 2 ∧
    (runBatch initResults
        [{ method := "GET", endpoint := "/customers", outcome := HttpOutcome.resp 500 "err" 7 },
         { method := "POST", endpoint := "/ai/chat", outcome := HttpOutcome.resp 500 "bad" 9 }]).1.success_count
      = initResults.success_count :=
  claim4_all500_batch initResults
    [{ method := "GET", endpoint := "/customers", outcome := HttpOutcome.resp 500 "err" 7 },
     { method := "POST", endpoint := "/ai/chat", outcome := HttpOutcome.resp 500 "bad" 9 }]
    (by
      intro r hr
      rcases List.mem_cons.mp hr with rfl | hr
      · exact ⟨"err", 7, rfl⟩
      · rcases List.mem_cons.mp hr with rfl | hr
        · exact ⟨"bad", 9, rfl⟩
        · exact absurd hr (List.not_mem_nil r))

/-- Claim C5: on recorded latencies `[10, 20, 30, 40]` the summary reports
mean 25, median 25, max 40, and a 95th percentile that agrees with
nearest-rank selection on the sorted sequence (both select 40). -/
theorem claim5_concrete_stats :
    summarize { response_times := [10, 20, 30, 40], errors := [],
                success_count := 4, error_count := 0 } =
      { mean := 25, median := 25, p95 := 40, max := 40 } ∧
    nearestRank95 [10, 20, 30, 40] = 40 := by
  constructor
  · have h1 : mean [10, 20, 30, 40] = 25 := by norm_num [mean]
    have h2 : median [10, 20, 30, 40] = 25 := by
      norm_num [median, sortList, List.insertionSort, List.orderedInsert]
    have h3 : percentile95 [10, 20, 30, 40] = 40 := by decide
    have h4 : maxList [10, 20, 30, 40] = 40 := by norm_num [maxList]
    simp [summarize, h1, h2, h3, h4]
  · decide

/-- Claim C6 counterexample: on 20 recorded latencies `1, ..., 20` the
script reports `sorted[int(20 * 0.95)] = sorted[19] = 20`, while the
nearest-rank 95th percentile is the element of 1-based rank
`ceil(0.95 * 20) = 19`, namely 19. -/
theorem claim6_counterexample :
    ¬ (percentile95 [1, 2, 3, 4, 5, 6, 7, 8, 9, 10, 11, 12, 13, 14, 15, 16, 17, 18, 19, 20]
        = nearestRank95 [1, 2, 3, 4, 5, 6, 7, 8, 9, 10, 11, 12, 13, 14, 15, 16, 17, 18, 19, 20]) := by
  decide

/-- Claim C6 (amended): for every list of recorded latencies whose length
is not a multiple of 20 (so that `0.95 * N` is not an integer), the
reported 95th percentile equals the nearest-rank percentile, the element
at 1-based rank `ceil(0.95 * N)` of the sorted copy; when `20 ∣ N` the
script instead reports the element one rank higher. -/
theorem claim6_amended_percentile (l : List ℚ) (h : ¬ (20 ∣ l.length)) :
    percentile95 l = nearestRank95 l := by
  unfold percentile95 nearestRank95
  have h1 : ¬ ((20 : Nat) ∣ 19 * l.length) := by
    intro hc
    exact h (Nat.Coprime.dvd_of_dvd_mul_left (by norm_num) hc)
  have h2 : (19 * l.length + 19) / 20 - 1 = 19 * l.length / 20 := by omega
  rw [h2]

/-- Witness for the amended C6 at the four recorded latencies of C5. -/
theorem claim6_amended_percentile_witness :
    ¬ (20 ∣ ([(10 : ℚ), 20, 30, 40]).length) ∧
    percentile95 [10, 20, 30, 40] = nearestRank95 [10, 20, 30, 40] :=
  ⟨by decide, claim6_amended_percentile [10, 20, 30, 40] (by decide)⟩

/-- Claim C7: the summary computation is deterministic and pure: any two
driver states with equal recorded latency sequences (whatever their other
fields) yield equal mean, median, 95th percentile and max, and the sorted
sequence used is a copy — a permutation of the recorded sequence, which
itself is left unchanged. -/
theorem claim7_summarize_pure (st1 st2 : Results)
    (h : st1.response_times = st2.response_times) :
    summarize st1 = summarize st2 ∧
    List.Perm (sortList st1.response_times) st1.response_times := by
  constructor
  · unfold summarize
    rw [h]
  · exact List.perm_insertionSort _ _

/-- Witness for C7 on two states sharing latencies `[10, 20]` but differing
in every other field. -/
theorem claim7_summarize_pure_witness :
    summarize { response_times := [10, 20], errors := [],
                success_count := 2, error_count := 0 }
      = summarize { response_times := [10, 20],
                    errors := [ErrorEntry.exnError "/x" "t"],
                    success_count := 0, error_count := 1 } ∧
    List.Perm (sortList [10, 20]) [10, 20] :=
  claim7_summarize_pure
    { response_times := [10, 20], errors := [], success_count := 2, error_count := 0 }
    { response_times := [10, 20], errors := [ErrorEntry.exnError "/x" "t"],
      success_count := 0, error_count := 1 } rfl

/-- Claim C8: `success_count` and `error_count` are monotonically
non-decreasing: neither a single `make_request` nor a whole batch ever
decreases either counter, and a fresh driver starts both at zero. -/
theorem claim8_counters_monotone (st : Results) (m e : String) (o : HttpOutcome)
    (reqs : List RequestSpec) :
    initResults.success_count = 0 ∧ initResults.error_count = 0 ∧
    st.success_count ≤ (make_request st m e o).1.success_count ∧
    st.error_count ≤ (make_request st m e o).1.error_count ∧
    st.success_count ≤ (runBatch st reqs).1.success_count ∧
    st.error_count ≤ (runBatch st reqs).1.error_count :=
  ⟨rfl, rfl, (make_request_mono st m e o).1, (make_request_mono st m e o).2,
   (runBatch_mono st reqs).1, (runBatch_mono st reqs).2⟩

/-- Claim C9: the invariant `error_count = length errors` holds in the
initial state and is preserved by every call to `make_request`. -/
theorem claim9_error_invariant (st : Results) (m e : String) (o : HttpOutcome)
    (h : st.error_count = st.errors.length) :
    initResults.error_count = initResults.errors.length ∧
    (make_request st m e o).1.error_count = (make_request st m e o).1.errors.length :=
  ⟨rfl, make_request_inv st m e o h⟩

/-- Witness for C9 at the initial state and a concrete successful
`GET /pipelines`. -/
theorem claim9_error_invariant_witness :
    initResults.error_count = initResults.errors.length ∧
    (make_request initResults "GET" "/pipelines" (HttpOutcome.resp 200 "ok" 5)).1.error_count
      = (make_request initResults "GET" "/pipelines" (HttpOutcome.resp 200 "ok" 5)).1.errors.length :=
  claim9_error_invariant initResults "GET" "/pipelines" (HttpOutcome.resp 200 "ok" 5) rfl

/-- Claim C10: on a transport failure `make_request` leaves
`response_times` unchanged and returns `response_time = 0`, while a request
that received a response (of any status) appends exactly one latency — so
`response_times` holds one entry per request that got an HTTP response, not
one per dispatched request. -/
theorem claim10_latency_recording (st : Results) (m e msg : String) (s : Nat)
    (b : String) (lat : ℚ) (hm : m = "GET" ∨ m = "POST") :
    (make_request st m e (HttpOutcome.exn msg)).1.response_times = st.response_times ∧
    (make_request st m e (HttpOutcome.exn msg)).2.response_time = 0 ∧
    (make_request st m e (HttpOutcome.resp s b lat)).1.response_times
      = st.response_times ++ [lat] := by
  have hexn : make_request st m e (HttpOutcome.exn msg) = exnBranch st e msg := by
    unfold make_request
    rw [if_pos hm]
  refine ⟨?_, ?_, ?_⟩
  · rw [hexn]
    rfl
  · rw [hexn]
    rfl
  · unfold make_request
    rw [if_pos hm]
    by_cases hs : s < 400 <;> simp [hs]

/-- Witness for C10 at a concrete timed-out and a concrete answered
`GET /auth/profile`. -/
theorem claim10_latency_recording_witness :
    ("GET" = "GET" ∨ "GET" = "POST") ∧
    (make_request initResults "GET" "/auth/profile" (HttpOutcome.exn "timeout")).1.response_times
      = initResults.response_times ∧
    (make_request initResults "GET" "/auth/profile" (HttpOutcome.exn "timeout")).2.response_time = 0 ∧
    (make_request initResults "GET" "/auth/profile" (HttpOutcome.resp 200 "ok" 12)).1.response_times
      = initResults.response_times ++ [12] :=
  ⟨Or.inl rfl,
   claim10_latency_recording initResults "GET" "/auth/profile" "timeout" 200 "ok" 12 (Or.inl rfl)⟩

end StressTest
